import Mathlib

/-!
Verification of the agent registry and chat proxy (`agents.py`).

The Python source is shallowly embedded: external providers (the wikipedia
summary service, the DuckDuckGo search client, the Python `exec` primitive
and the OpenAI chat-completion endpoint) are parameters — functions from
their inputs to an explicit outcome type covering the success and failure
signals the source catches.  Each Python function or method of
`ToolManager` / `AgentManager` becomes a Lean definition of the same name;
Python exceptions become explicit error values.
-/

namespace Datalyze

/-- `Task` dataclass (agents.py lines 14-17). -/
structure Task where
  description : String
  expected_output : String
deriving DecidableEq

/-- `Agent` dataclass (agents.py lines 19-27). -/
structure Agent where
  id : String
  name : String
  role : String
  goal : String
  backstory : String
  task : Task
  tools : List String
deriving DecidableEq

/-- Outcome of one call to the wikipedia summary provider
(`wikipedia.summary(query, sentences)`): a summary text, a
`DisambiguationError` carrying its suggested options, a `PageError`, or any
other exception carrying its message. -/
inductive WikiResult where
  | ok (text : String)
  | disambig (options : List String)
  | pageError
  | otherError (msg : String)
deriving DecidableEq

/-- One web-search hit as consumed by the source (`result['body']`). -/
structure SearchResult where
  title : String
  body : String
deriving DecidableEq

/-- Outcome of one call to the DuckDuckGo text-search provider
(`ddgs.text(query, max_results)`): an ordered result list, or any
exception carrying its message. -/
inductive DDGResult where
  | ok (results : List SearchResult)
  | err (msg : String)
deriving DecidableEq

/-- Outcome of `exec(code, ...)` on the message text: the resulting local
bindings rendered to strings (the source only reads `result` via
`str(...)`), or any exception carrying its message. -/
inductive ExecResult where
  | ok (locals : List (String × String))
  | err (msg : String)
deriving DecidableEq

/-- The external providers a turn may consult.  `wiki` takes the query and
the requested sentence count; `ddg` takes the query and `max_results`;
`completion` takes the system and user messages and yields the reply text
or the provider failure's message. -/
structure Providers where
  wiki : String → Nat → WikiResult
  ddg : String → Nat → DDGResult
  execFn : String → ExecResult
  completion : String → String → Except String String

/-- `ToolManager.wikipedia_search` (lines 44-57), instrumented with the
list of `(topic, sentences)` provider calls it makes.  The bare `except:`
around the disambiguation retry maps every non-`ok` retry outcome — and
the `e.options[0]` index error on an empty option list — to the fixed
fallback string. -/
def wikipedia_search_run (wiki : String → Nat → WikiResult) (query : String) :
    String × List (String × Nat) :=
  match wiki query 3 with
  | WikiResult.ok text => (text, [(query, 3)])
  | WikiResult.disambig options =>
    match options with
    | [] => ("Multiple matches found. Please be more specific.", [(query, 3)])
    | first :: _ =>
      match wiki first 2 with
      | WikiResult.ok text => (text, [(query, 3), (first, 2)])
      | _ => ("Multiple matches found. Please be more specific.", [(query, 3), (first, 2)])
  | WikiResult.pageError => ("No Wikipedia page found for this query.", [(query, 3)])
  | WikiResult.otherError msg => ("Error searching Wikipedia: " ++ msg, [(query, 3)])

/-- The text `ToolManager.wikipedia_search` returns. -/
def wikipedia_search (wiki : String → Nat → WikiResult) (query : String) : String :=
  (wikipedia_search_run wiki query).1

/-- `ToolManager.duckduckgo_search` (lines 70-81), instrumented with the
`(query, max_results)` provider calls it makes. -/
def duckduckgo_search_run (ddg : String → Nat → DDGResult) (query : String) :
    String × List (String × Nat) :=
  match ddg query 2 with
  | DDGResult.ok results =>
    if results.isEmpty then ("No results found.", [(query, 2)])
    else (String.intercalate "\n" (results.map SearchResult.body), [(query, 2)])
  | DDGResult.err msg => ("Error performing DuckDuckGo search: " ++ msg, [(query, 2)])

/-- The text `ToolManager.duckduckgo_search` returns. -/
def duckduckgo_search (ddg : String → Nat → DDGResult) (query : String) : String :=
  (duckduckgo_search_run ddg query).1

/-- `ToolManager.google_search` (lines 83-87): delegates to DuckDuckGo. -/
def google_search (ddg : String → Nat → DDGResult) (query : String) : String :=
  duckduckgo_search ddg query

/-- `ToolManager.python_repl` (lines 59-68): runs the code, then returns
`str(restricted_locals.get('result', 'Code executed successfully'))`. -/
def python_repl (execFn : String → ExecResult) (code : String) : String :=
  match execFn code with
  | ExecResult.ok locals =>
    match locals.lookup "result" with
    | some v => v
    | none => "Code executed successfully"
  | ExecResult.err msg => "Error executing Python code: " ++ msg

/-- Python substring containment (`needle in hay`): helper matching a
prefix of characters. -/
def begMatch : List Char → List Char → Bool
  | [], _ => true
  | _ :: _, [] => false
  | a :: as, b :: bs => a == b && begMatch as bs

/-- Python's `s.startswith(pre)` prefix test. -/
def strStartsWith (s pre : String) : Bool :=
  begMatch pre.toList s.toList

/-- Python substring containment, auxiliary scan over the haystack. -/
def strContainsAux (needle : List Char) : List Char → Bool
  | [] => begMatch needle []
  | c :: cs => begMatch needle (c :: cs) || strContainsAux needle cs

/-- Python's `needle in hay` substring test. -/
def strContains (hay needle : String) : Bool :=
  strContainsAux needle.toList hay.toList

/-- Python `str.capitalize()` (ASCII range, which covers every tool name
the source dispatches on): first character upper-cased, the rest
lower-cased. -/
def pyCapitalize (s : String) : String :=
  match s.toList with
  | [] => ""
  | c :: cs => String.mk (c.toUpper :: cs.map Char.toLower)

/-- The heuristic gate on the `python_repl` tool (line 159):
`'print' in message or 'def' in message or '=' in message`. -/
def pythonTrigger (message : String) : Bool :=
  strContains message "print" || strContains message "def" || strContains message "="

/-- The `self.agents` dictionary of `AgentManager`: identifier-keyed,
insertion-ordered (Python dicts preserve insertion order; every key is
written once). -/
abbrev Registry := List (String × Agent)

/-- The keys of the registry, in insertion order. -/
def registryKeys (m : Registry) : List String := m.map Prod.fst

/-- The task value supplied under the `task` key of the creation payload:
either not a dict at all, or a dict whose `description` /
`expected_output` keys may each be present or absent. -/
inductive TaskValue where
  | notDict
  | dict (description : Option String) (expected_output : Option String)
deriving DecidableEq

/-- The creation payload `agent_data`: each required key present
(`some`) or absent (`none`).  Extra keys are never read by the source. -/
structure AgentData where
  name : Option String
  role : Option String
  goal : Option String
  backstory : Option String
  tools : Option (List String)
  task : Option TaskValue
deriving DecidableEq

/-- The `ValueError`s `create_agent` can raise (lines 99 and 104). -/
inductive CreateError where
  | missingFields (fields : List String)
  | invalidTaskFormat
deriving DecidableEq

/-- The message string carried by each `ValueError` of `create_agent`. -/
def renderCreateError : CreateError → String
  | CreateError.missingFields fs => "Missing required fields: " ++ String.intercalate ", " fs
  | CreateError.invalidTaskFormat => "Invalid task data format"

/-- `required_fields` (line 96). -/
def required_fields : List String :=
  ["name", "role", "goal", "backstory", "tools", "task"]

/-- `field in agent_data` for each required key. -/
def has_field (d : AgentData) : String → Bool
  | "name" => d.name.isSome
  | "role" => d.role.isSome
  | "goal" => d.goal.isSome
  | "backstory" => d.backstory.isSome
  | "tools" => d.tools.isSome
  | "task" => d.task.isSome
  | _ => false

/-- `missing_fields` (line 97): the required keys absent from the
payload, in the order of `required_fields`. -/
def missing_fields_of (d : AgentData) : List String :=
  required_fields.filter (fun f => !(has_field d f))

/-- `AgentManager.create_agent` (lines 94-127).  The missing-field check
comes first; then `task_data = agent_data.get('task', \x7b\x7d)` is rejected
unless it is a dict holding both `description` and `expected_output`
(an absent `task` key cannot reach that check, since it is reported as a
missing field).  On success the fresh id is `str(len(self.agents) + 1)`,
the agent is stored under it, and the key lookups `agent_data["name"]`
etc. cannot fail, so `Option.getD` defaults are unreachable. -/
def create_agent (m : Registry) (d : AgentData) : Except CreateError (Registry × Agent) :=
  let missing := missing_fields_of d
  if missing.isEmpty then
    match d.task with
    | some (TaskValue.dict (some de) (some ex)) =>
      let agent_id := toString (m.length + 1)
      let task : Task := { description := de, expected_output := ex }
      let agent : Agent :=
        { id := agent_id
          name := d.name.getD ""
          role := d.role.getD ""
          goal := d.goal.getD ""
          backstory := d.backstory.getD ""
          task := task
          tools := d.tools.getD [] }
      Except.ok (m ++ [(agent_id, agent)], agent)
    | _ => Except.error CreateError.invalidTaskFormat
  else Except.error (CreateError.missingFields missing)

/-- `AgentManager.get_agent` (lines 129-130). -/
def get_agent (m : Registry) (agent_id : String) : Option Agent :=
  m.lookup agent_id

/-- The errors `process_message` can raise: `ValueError("Agent not
found")` (line 138) and the wrapped completion failure (line 195). -/
inductive ProcessError where
  | notFound
  | completionError (msg : String)
deriving DecidableEq

/-- The message string carried by each error of `process_message`. -/
def renderProcessError : ProcessError → String
  | ProcessError.notFound => "Agent not found"
  | ProcessError.completionError msg => msg

/-- The system message of a turn (lines 141-149), reproduced with the
f-string's literal indentation. -/
def system_message_of (agent : Agent) : String :=
  "You are " ++ agent.name ++ ", a " ++ agent.role ++ ". \n        Your goal is: "
    ++ agent.goal
    ++ "\n        Your backstory: " ++ agent.backstory
    ++ "\n        Your current task: " ++ agent.task.description
    ++ "\n        Expected output: " ++ agent.task.expected_output
    ++ "\n        \n        You have access to the following tools: "
    ++ String.intercalate ", " agent.tools
    ++ "\n        Use these tools when appropriate to help answer questions and complete tasks."
    ++ "\n        Always maintain your character and respond in a way that aligns with your role and backstory."

/-- Tool-name dispatch inside the loop of `process_message` (lines
153-166): `some result` when the branch calls a tool function, `none`
when the loop `continue`s (the `python_repl` gate failing, or an
unrecognized tool name). -/
def dispatch (P : Providers) (message tool : String) : Option String :=
  if tool == "wikipedia" then some (wikipedia_search P.wiki message)
  else if tool == "python_repl" then
    if pythonTrigger message then some (python_repl P.execFn message) else none
  else if tool == "duckduckgo" || tool == "google_search" then
    some (duckduckgo_search P.ddg message)
  else none

/-- The tool loop of `process_message` (lines 152-171): returns the
collected `tool_results` lines and the list of tools whose tool function
was invoked, both in declared order.  A line is appended only when
`result and not result.startswith("Error")` (line 168); the `except`
branch of the loop is unreachable because every tool function catches
its own provider failures and `str.capitalize` cannot fail. -/
def process_tools (P : Providers) (message : String) : List String → List String × List String
  | [] => ([], [])
  | tool :: rest =>
    let (lines, invoked) := process_tools P message rest
    match dispatch P message tool with
    | none => (lines, invoked)
    | some result =>
      (if !(result == "") && !(strStartsWith result "Error") then
        (pyCapitalize tool ++ ": " ++ result) :: lines
      else lines, tool :: invoked)

/-- The inclusion test of line 168 on a tool's result text:
`result and not result.startswith("Error")`. -/
def result_included (r : String) : Bool :=
  !(r == "") && !(strStartsWith r "Error")

/-- The labelled line of line 169 for one tool:
`f"{tool.capitalize()}: {result}"`, the result being what `dispatch`
produced for the tool (`""` unreachable for an invoked tool). -/
def tool_line (P : Providers) (message tool : String) : String :=
  pyCapitalize tool ++ ": " ++ (dispatch P message tool).getD ""

/-- The user message of a turn (lines 174-179). -/
def user_message_of (message : String) (tool_results : List String) : String :=
  "User message: " ++ message
    ++ "\n\nAvailable information from tools:\n"
    ++ String.intercalate "\n" tool_results
    ++ "\n\nRemember to maintain your character and use the provided information appropriately."

deriving instance DecidableEq for Except

/-- Everything one call to `process_message` does: the registry it
leaves behind (the method body never assigns to `self.agents`), the
tools it invoked in order, the single completion call it issued (if
any) with its system and user messages, and the outcome. -/
structure TurnResult where
  registry : Registry
  invoked : List String
  completionCall : Option (String × String)
  outcome : Except ProcessError String
deriving DecidableEq

/-- `AgentManager.process_message` (lines 135-195). -/
def process_message (P : Providers) (m : Registry) (agent_id message : String) : TurnResult :=
  match get_agent m agent_id with
  | none =>
    { registry := m, invoked := [], completionCall := none
      outcome := Except.error ProcessError.notFound }
  | some agent =>
    let system_message := system_message_of agent
    let tr := process_tools P message agent.tools
    let user_message := user_message_of message tr.1
    match P.completion system_message user_message with
    | Except.ok reply =>
      { registry := m, invoked := tr.2
        completionCall := some (system_message, user_message)
        outcome := Except.ok reply }
    | Except.error err =>
      { registry := m, invoked := tr.2
        completionCall := some (system_message, user_message)
        outcome := Except.error (ProcessError.completionError ("Error getting AI response: " ++ err)) }

/-- A sequence of `create_agent` calls: threads the registry through,
collecting the agents of the successful calls (a failing call raises
before any mutation, leaving the registry unchanged). -/
def run_creates_acc (m : Registry) : List AgentData → Registry × List Agent
  | [] => (m, [])
  | d :: ds =>
    match create_agent m d with
    | Except.ok (m2, a) =>
      ((run_creates_acc m2 ds).1, a :: (run_creates_acc m2 ds).2)
    | Except.error _ => run_creates_acc m ds

/-- The test at line 103: the `task` payload is a dict holding both
`description` and `expected_output`. -/
def task_format_ok : TaskValue → Bool
  | TaskValue.dict (some _) (some _) => true
  | _ => false

/-! ### Concrete fixtures used by witnesses and counterexamples -/

/-- A wikipedia provider that always summarizes. -/
def wikiOk : String → Nat → WikiResult :=
  fun _ _ => WikiResult.ok "Paris is the capital of France."

/-- A search provider with one ordinary hit. -/
def ddgOk : String → Nat → DDGResult :=
  fun _ _ => DDGResult.ok [{ title := "t", body := "Paris travel guide." }]

/-- Providers whose tool calls and completion all succeed. -/
def Pgood : Providers :=
  { wiki := wikiOk, ddg := ddgOk, execFn := fun _ => ExecResult.ok []
    completion := fun _ _ => Except.ok "reply" }

/-- Providers whose wikipedia provider fails with a generic error while
the search provider succeeds. -/
def P0 : Providers :=
  { wiki := fun _ _ => WikiResult.otherError "boom", ddg := ddgOk
    execFn := fun _ => ExecResult.ok []
    completion := fun _ _ => Except.ok "reply" }

/-- Providers whose completion call fails. -/
def Pfail : Providers :=
  { wiki := wikiOk, ddg := ddgOk, execFn := fun _ => ExecResult.ok []
    completion := fun _ _ => Except.error "rate limited" }

/-- Providers whose search provider succeeds with a body that happens to
begin with the word `Error`. -/
def PerrBody : Providers :=
  { wiki := wikiOk
    ddg := fun _ _ => DDGResult.ok [{ title := "t", body := "Error codes explained" }]
    execFn := fun _ => ExecResult.ok []
    completion := fun _ _ => Except.ok "reply" }

/-- A wikipedia provider that disambiguates the query `Paris` and
summarizes the suggested alternative. -/
def wikiDis : String → Nat → WikiResult :=
  fun q _ =>
    if q == "Paris" then WikiResult.disambig ["Paris, Texas"]
    else WikiResult.ok "Paris, Texas is a city."

/-- A search provider with two hits. -/
def ddgTwo : String → Nat → DDGResult :=
  fun _ _ =>
    DDGResult.ok [{ title := "a", body := "body1" }, { title := "b", body := "body2" }]

/-- A registered persona with the two always-eligible tools. -/
def agent1 : Agent :=
  { id := "1", name := "Ada", role := "researcher", goal := "learn things"
    backstory := "curious"
    task := { description := "answer questions", expected_output := "clear text" }
    tools := ["wikipedia", "duckduckgo"] }

/-- A one-entry registry holding `agent1`. -/
def reg1 : Registry := [("1", agent1)]

/-- A creation payload whose `task` dict lacks only `description`. -/
def dNoDescription : AgentData :=
  { name := some "n", role := some "r", goal := some "g", backstory := some "b"
    tools := some ["wikipedia"], task := some (TaskValue.dict none (some "out")) }

/-- A creation payload missing `role` and `tools`. -/
def dMiss : AgentData :=
  { name := some "n", role := none, goal := some "g", backstory := some "b"
    tools := none, task := some (TaskValue.dict (some "d") (some "out")) }

/-! ### Decimal string representations of distinct counters are distinct -/

/-- Numeric value of a decimal digit character. -/
def digitVal (c : Char) : Nat := c.toNat - 48

/-- Decimal value of a most-significant-first digit string. -/
def digitsVal (ds : List Char) : Nat :=
  ds.foldl (fun acc c => acc * 10 + digitVal c) 0

theorem digitsVal_append_singleton (xs : List Char) (c : Char) :
    digitsVal (xs ++ [c]) = digitsVal xs * 10 + digitVal c := by
  simp [digitsVal, List.foldl_append]

theorem toDigitsCore_shift (n : Nat) : ∀ fuel ds, n < fuel →
    Nat.toDigitsCore 10 fuel n ds = Nat.toDigitsCore 10 (n + 1) n [] ++ ds := by
  induction n using Nat.strong_induction_on with
  | _ n ih =>
    intro fuel ds h
    match fuel, h with
    | fuel + 1, h =>
      by_cases h0 : n / 10 = 0
      · simp only [Nat.toDigitsCore, h0, if_true]
        rfl
      · have hlt : n / 10 < n := Nat.div_lt_self (Nat.pos_of_ne_zero (by omega)) (by omega)
        have hfuel : n / 10 < fuel := by omega
        simp only [Nat.toDigitsCore, h0, if_false]
        rw [ih (n / 10) hlt fuel _ hfuel, ih (n / 10) hlt n _ (by omega),
          List.append_assoc]
        rfl

theorem toDigits_ten (n : Nat) :
    Nat.toDigits 10 n =
      if n < 10 then [Nat.digitChar n]
      else Nat.toDigits 10 (n / 10) ++ [Nat.digitChar (n % 10)] := by
  by_cases h : n < 10
  · have h0 : n / 10 = 0 := Nat.div_eq_of_lt h
    have hm : n % 10 = n := Nat.mod_eq_of_lt h
    simp only [Nat.toDigits, Nat.toDigitsCore, h0, if_true, hm, h, if_pos]
  · have h0 : n / 10 ≠ 0 := by omega
    have hlt : n / 10 < n := Nat.div_lt_self (by omega) (by omega)
    simp only [Nat.toDigits, Nat.toDigitsCore, h0, if_false, h]
    exact toDigitsCore_shift (n / 10) n _ (by omega)

theorem digitVal_digitChar (d : Nat) (h : d < 10) : digitVal (Nat.digitChar d) = d := by
  interval_cases d <;> rfl

theorem digitsVal_toDigits (n : Nat) : digitsVal (Nat.toDigits 10 n) = n := by
  induction n using Nat.strong_induction_on with
  | _ n ih =>
    rw [toDigits_ten]
    by_cases h : n < 10
    · simp [h, digitsVal, digitVal_digitChar n h]
    · have hlt : n / 10 < n := Nat.div_lt_self (by omega) (by omega)
      rw [if_neg h, digitsVal_append_singleton, ih (n / 10) hlt,
        digitVal_digitChar (n % 10) (by omega)]
      omega

theorem toString_nat_injective : Function.Injective (fun n : Nat => toString n) := by
  intro a b h
  have h2 : Nat.toDigits 10 a = Nat.toDigits 10 b := by
    have h3 : (Nat.toDigits 10 a).asString = (Nat.toDigits 10 b).asString := h
    simpa [List.asString] using congrArg String.data h3
  calc a = digitsVal (Nat.toDigits 10 a) := (digitsVal_toDigits a).symm
    _ = digitsVal (Nat.toDigits 10 b) := by rw [h2]
    _ = b := digitsVal_toDigits b

/-! ### Shape of a successful creation -/

theorem create_agent_ok (m : Registry) (d : AgentData) (m2 : Registry) (a : Agent)
    (h : create_agent m d = Except.ok (m2, a)) :
    a.id = toString (m.length + 1) ∧ m2 = m ++ [(toString (m.length + 1), a)] := by
  simp only [create_agent] at h
  split at h
  · split at h
    · cases h
      exact ⟨rfl, rfl⟩
    · cases h
  · cases h

theorem run_creates_acc_spec (ds : List AgentData) : ∀ m : Registry,
    ((run_creates_acc m ds).1).length = m.length + ((run_creates_acc m ds).2).length
    ∧ ((run_creates_acc m ds).2).map Agent.id
        = (List.range ((run_creates_acc m ds).2).length).map
            (fun i => toString (m.length + 1 + i))
    ∧ registryKeys ((run_creates_acc m ds).1)
        = registryKeys m ++ ((run_creates_acc m ds).2).map Agent.id := by
  induction ds with
  | nil => intro m; simp [run_creates_acc, registryKeys]
  | cons d ds ih =>
    intro m
    simp only [run_creates_acc]
    cases hc : create_agent m d with
    | error e => simpa using ih m
    | ok p =>
      obtain ⟨m2, a⟩ := p
      obtain ⟨hid, hm2⟩ := create_agent_ok m d m2 a hc
      obtain ⟨ihlen, ihids, ihkeys⟩ := ih m2
      have hlen2 : m2.length = m.length + 1 := by
        rw [hm2]; simp
      refine ⟨by simp only [List.length_cons]; omega, ?_, ?_⟩
      · simp only [List.map_cons, List.length_cons, List.range_succ_eq_map,
          List.map_map]
        rw [hid, ihids, hlen2]
        congr 1
        apply List.map_congr_left
        intro i _
        simp only [Function.comp_apply]
        congr 1
        omega
      · rw [ihkeys, hm2]
        simp only [registryKeys, List.map_append, List.map_cons, List.map_nil]
        rw [hid]
        simp

/-! ### Claims on the registry -/

/-- C3: starting from an empty registry, across any sequence of
`create_agent` calls the n-th successfully created persona receives the
identifier `toString n` (counting from 1), the assigned identifiers are
pairwise distinct — so none is ever reused — and the registry's keys are
exactly those identifiers in creation order. -/
theorem C3_identifiers_sequential_unique (ds : List AgentData) :
    ((run_creates_acc [] ds).2).map Agent.id
      = (List.range ((run_creates_acc [] ds).2).length).map (fun i => toString (i + 1))
    ∧ (((run_creates_acc [] ds).2).map Agent.id).Nodup
    ∧ registryKeys ((run_creates_acc [] ds).1)
      = ((run_creates_acc [] ds).2).map Agent.id := by
  obtain ⟨hlen, hids, hkeys⟩ := run_creates_acc_spec ds []
  have hinj : Function.Injective
      (fun i : Nat => toString (List.length ([] : Registry) + 1 + i)) := by
    intro i j h
    have h2 := toString_nat_injective h
    omega
  refine ⟨?_, ?_, ?_⟩
  · rw [hids]
    apply List.map_congr_left
    intro i _
    congr 1
    simp only [List.length_nil]
    omega
  · rw [hids]
    exact (List.nodup_range _).map hinj
  · rw [hkeys]
    simp [registryKeys]

/-- C4: looking up an identifier absent from the registry makes
`process_message` fail with the not-found error, invoking no tool and no
completion call, and leaving the registry as it was. -/
theorem C4_unknown_id (P : Providers) (m : Registry) (agent_id message : String)
    (h : get_agent m agent_id = none) :
    process_message P m agent_id message =
      { registry := m, invoked := [], completionCall := none
        outcome := Except.error ProcessError.notFound } := by
  simp [process_message, h]

theorem C4_unknown_id_witness :
    get_agent [] "42" = none ∧
      process_message Pgood [] "42" "hi" =
        { registry := [], invoked := [], completionCall := none
          outcome := Except.error ProcessError.notFound } :=
  ⟨rfl, C4_unknown_id Pgood [] "42" "hi" rfl⟩

/-- C7: when the completion provider fails, `process_message` fails with
a completion error wrapping the provider's message, after exactly one
completion call (no retry), and the registry it leaves behind is exactly
the registry it was given. -/
theorem C7_completion_failure (P : Providers) (m : Registry) (agent_id message : String)
    (agent : Agent) (emsg : String)
    (hfound : get_agent m agent_id = some agent)
    (hfail : P.completion (system_message_of agent)
        (user_message_of message (process_tools P message agent.tools).1)
        = Except.error emsg) :
    (process_message P m agent_id message).outcome
      = Except.error (ProcessError.completionError ("Error getting AI response: " ++ emsg))
    ∧ (process_message P m agent_id message).registry = m
    ∧ (process_message P m agent_id message).completionCall
      = some (system_message_of agent,
          user_message_of message (process_tools P message agent.tools).1) := by
  simp [process_message, hfound, hfail]

theorem C7_completion_failure_witness :
    (process_message Pfail reg1 "1" "hi").outcome
      = Except.error (ProcessError.completionError ("Error getting AI response: rate limited"))
    ∧ (process_message Pfail reg1 "1" "hi").registry = reg1 := by
  have h := C7_completion_failure Pfail reg1 "1" "hi" agent1 "rate limited" (by decide) rfl
  exact ⟨h.1, h.2.1⟩

/-! ### Claims on the tools -/

/-- C9: the `google_search` tool function returns exactly what the
DuckDuckGo tool function returns on every query, and the dispatch of
`process_message` sends the tool names `google_search` and `duckduckgo`
to the very same invocation. -/
theorem C9_google_search_alias (ddg : String → Nat → DDGResult) (query : String)
    (P : Providers) (message : String) :
    google_search ddg query = duckduckgo_search ddg query
    ∧ dispatch P message "google_search" = dispatch P message "duckduckgo" := by
  refine ⟨rfl, ?_⟩
  simp [dispatch]

theorem begMatch_append (l t : List Char) : begMatch l (l ++ t) = true := by
  induction l with
  | nil => rfl
  | cons c cs ih => simp [begMatch, ih]

theorem strContainsAux_suffix (l : List Char) : ∀ xs, strContainsAux l (xs ++ l) = true := by
  intro xs
  induction xs with
  | nil =>
    cases l with
    | nil => rfl
    | cons c cs =>
      have h := begMatch_append (c :: cs) []
      simp only [List.append_nil] at h
      simp [strContainsAux, h]
  | cons x xs ih => simp [strContainsAux, ih]

/-- Appending makes the right operand a substring of the result. -/
theorem strContains_append_right (a b : String) : strContains (a ++ b) b = true := by
  have hdata : (a ++ b).data = a.data ++ b.data := String.data_append a b
  simp only [strContains, String.toList, hdata]
  exact strContainsAux_suffix b.data a.data

/-- C5: the encyclopedia lookup first requests a 3-sentence summary of
the query (every request it makes asks for 2 or 3 sentences); on a
disambiguation signal with suggestions it retries exactly once, against
the first suggestion, and returns that retry's summary on success or the
fixed multiple-matches fallback if the retry yields anything else; on a
page-not-found signal it returns the fixed no-page message; any other
provider failure yields the templated error string containing the
underlying cause — every provider outcome maps to a returned string,
never to an uncaught exception. -/
theorem C5_wikipedia_search_behavior (wiki : String → Nat → WikiResult) (query : String) :
    ((wikipedia_search_run wiki query).2).head? = some (query, 3)
    ∧ (∀ c ∈ (wikipedia_search_run wiki query).2, 2 ≤ c.2 ∧ c.2 ≤ 3)
    ∧ (∀ text, wiki query 3 = WikiResult.ok text → wikipedia_search wiki query = text)
    ∧ (∀ first rest, wiki query 3 = WikiResult.disambig (first :: rest) →
        (wikipedia_search_run wiki query).2 = [(query, 3), (first, 2)]
        ∧ (∀ text, wiki first 2 = WikiResult.ok text → wikipedia_search wiki query = text)
        ∧ ((∀ text, wiki first 2 ≠ WikiResult.ok text) →
            wikipedia_search wiki query
              = "Multiple matches found. Please be more specific."))
    ∧ (wiki query 3 = WikiResult.pageError →
        wikipedia_search wiki query = "No Wikipedia page found for this query.")
    ∧ (∀ msg, wiki query 3 = WikiResult.otherError msg →
        wikipedia_search wiki query = "Error searching Wikipedia: " ++ msg
        ∧ strContains (wikipedia_search wiki query) msg = true) := by
  refine ⟨?_, ?_, ?_, ?_, ?_, ?_⟩
  · cases h : wiki query 3 with
    | ok text => simp [wikipedia_search_run, h]
    | disambig options =>
      cases options with
      | nil => simp [wikipedia_search_run, h]
      | cons first rest =>
        cases h2 : wiki first 2 <;> simp [wikipedia_search_run, h, h2]
    | pageError => simp [wikipedia_search_run, h]
    | otherError msg => simp [wikipedia_search_run, h]
  · intro c hc
    cases h : wiki query 3 with
    | ok text => simp [wikipedia_search_run, h] at hc; simp [hc]
    | disambig options =>
      cases options with
      | nil => simp [wikipedia_search_run, h] at hc; simp [hc]
      | cons first rest =>
        cases h2 : wiki first 2 <;>
          (simp [wikipedia_search_run, h, h2] at hc; rcases hc with hc | hc <;> simp [hc])
    | pageError => simp [wikipedia_search_run, h] at hc; simp [hc]
    | otherError msg => simp [wikipedia_search_run, h] at hc; simp [hc]
  · intro text h
    simp [wikipedia_search, wikipedia_search_run, h]
  · intro first rest h
    refine ⟨?_, ?_, ?_⟩
    · cases h2 : wiki first 2 <;> simp [wikipedia_search_run, h, h2]
    · intro text h2
      simp [wikipedia_search, wikipedia_search_run, h, h2]
    · intro hne
      cases h2 : wiki first 2 with
      | ok text => exact absurd h2 (hne text)
      | disambig options => simp [wikipedia_search, wikipedia_search_run, h, h2]
      | pageError => simp [wikipedia_search, wikipedia_search_run, h, h2]
      | otherError msg => simp [wikipedia_search, wikipedia_search_run, h, h2]
  · intro h
    simp [wikipedia_search, wikipedia_search_run, h]
  · intro msg h
    have he : wikipedia_search wiki query = "Error searching Wikipedia: " ++ msg := by
      simp [wikipedia_search, wikipedia_search_run, h]
    exact ⟨he, by rw [he]; exact strContains_append_right "Error searching Wikipedia: " msg⟩

theorem C5_wikipedia_search_witness :
    (wikipedia_search_run wikiDis "Paris").2 = [("Paris", 3), ("Paris, Texas", 2)]
    ∧ wikipedia_search wikiDis "Paris" = "Paris, Texas is a city." := by
  have h := (C5_wikipedia_search_behavior wikiDis "Paris").2.2.2.1 "Paris, Texas" []
    (by decide)
  exact ⟨h.1, h.2.1 "Paris, Texas is a city." (by decide)⟩

/-- C8: the web-search tool makes exactly one provider call, requesting
at most two results; a non-empty result sequence yields the result
bodies joined with newlines in provider order; an empty sequence yields
the fixed no-results message; a provider failure yields the templated
error string containing the underlying cause. -/
theorem C8_duckduckgo_search_behavior (ddg : String → Nat → DDGResult) (query : String) :
    (duckduckgo_search_run ddg query).2 = [(query, 2)]
    ∧ (ddg query 2 = DDGResult.ok [] → duckduckgo_search ddg query = "No results found.")
    ∧ (∀ results, results ≠ [] → ddg query 2 = DDGResult.ok results →
        duckduckgo_search ddg query
          = String.intercalate "\n" (results.map SearchResult.body))
    ∧ (∀ msg, ddg query 2 = DDGResult.err msg →
        duckduckgo_search ddg query = "Error performing DuckDuckGo search: " ++ msg
        ∧ strContains (duckduckgo_search ddg query) msg = true) := by
  refine ⟨?_, ?_, ?_, ?_⟩
  · cases h : ddg query 2 with
    | ok results => by_cases he : results.isEmpty <;> simp [duckduckgo_search_run, h, he]
    | err msg => simp [duckduckgo_search_run, h]
  · intro h
    simp [duckduckgo_search, duckduckgo_search_run, h]
  · intro results hne h
    have he : results.isEmpty = false := by
      cases results with
      | nil => exact absurd rfl hne
      | cons r rs => rfl
    simp [duckduckgo_search, duckduckgo_search_run, h, he]
  · intro msg h
    have he : duckduckgo_search ddg query = "Error performing DuckDuckGo search: " ++ msg := by
      simp [duckduckgo_search, duckduckgo_search_run, h]
    exact ⟨he, by
      rw [he]; exact strContains_append_right "Error performing DuckDuckGo search: " msg⟩

theorem C8_duckduckgo_search_witness :
    duckduckgo_search ddgTwo "Paris" = "body1\nbody2"
    ∧ (duckduckgo_search_run ddgTwo "Paris").2 = [("Paris", 2)] := by
  have h := C8_duckduckgo_search_behavior ddgTwo "Paris"
  refine ⟨?_, h.1⟩
  have h2 := h.2.2.1 [{ title := "a", body := "body1" }, { title := "b", body := "body2" }]
    (by decide) (by decide)
  rw [h2]
  rfl

/-! ### Claims on the tool loop of a turn -/

theorem process_tools_length_le (P : Providers) (message : String) (tools : List String) :
    ((process_tools P message tools).1).length ≤ ((process_tools P message tools).2).length := by
  induction tools with
  | nil => simp [process_tools]
  | cons t rest ih =>
    simp only [process_tools]
    cases hd : dispatch P message t with
    | none => simpa using ih
    | some r =>
      cases hcond : (!(r == "") && !(strStartsWith r "Error")) <;>
        (simp [hcond]; omega)

/-- C6: within a turn, the code-eval tool (`python_repl`) is invoked
exactly when it is among the persona's declared tools and the incoming
message contains one of the trigger substrings `print`, `def`, `=`; with
no trigger present the tool is skipped, and the prompt's tool block is
the one computed without the `python_repl` entry — no code-eval line
appears in it. -/
theorem C6_python_repl_gate (P : Providers) (message : String) (tools : List String) :
    ("python_repl" ∈ (process_tools P message tools).2
      ↔ "python_repl" ∈ tools ∧ pythonTrigger message = true)
    ∧ (pythonTrigger message = false →
        (process_tools P message tools).1
          = (process_tools P message (tools.filter (fun t => !(t == "python_repl")))).1) := by
  constructor
  · induction tools with
    | nil => simp [process_tools]
    | cons t rest ih =>
      simp only [process_tools]
      cases hd : dispatch P message t with
      | none =>
        by_cases ht : t = "python_repl"
        · subst ht
          have htr : pythonTrigger message = false := by
            cases h2 : pythonTrigger message
            · rfl
            · simp [dispatch, h2] at hd
          simp [ih, htr]
        · have ht2 : ¬("python_repl" = t) := fun h => ht h.symm
          simp [ih, List.mem_cons, ht2]
      | some r =>
        by_cases ht : t = "python_repl"
        · subst ht
          have htr : pythonTrigger message = true := by
            cases h2 : pythonTrigger message
            · simp [dispatch, h2] at hd
            · rfl
          simp [htr, ih, List.mem_cons]
        · have ht2 : ¬("python_repl" = t) := fun h => ht h.symm
          simp [ih, List.mem_cons, ht2]
  · intro htr
    induction tools with
    | nil => simp [process_tools]
    | cons t rest ih =>
      by_cases ht : t = "python_repl"
      · subst ht
        have hd : dispatch P message "python_repl" = none := by
          simp [dispatch, htr]
        simp [process_tools, hd, List.filter_cons, ih]
      · have hb : (!(t == "python_repl")) = true := by simp [ht]
        simp only [List.filter_cons, hb, if_pos]
        simp only [process_tools]
        cases hd : dispatch P message t <;> simp [hd, ih]

theorem C6_python_repl_gate_witness :
    ("python_repl" ∈ (process_tools Pgood "x = 1" ["python_repl"]).2
      ∧ pythonTrigger "hello there" = false)
    ∧ (process_tools Pgood "hello there" ["python_repl"]).1
      = (process_tools Pgood "hello there"
          (["python_repl"].filter (fun t => !(t == "python_repl")))).1 := by
  refine ⟨⟨?_, by decide⟩, ?_⟩
  · exact (C6_python_repl_gate Pgood "x = 1" ["python_repl"]).1.mpr
      ⟨by decide, by decide⟩
  · exact (C6_python_repl_gate Pgood "hello there" ["python_repl"]).2 (by decide)

/-- C10: an invoked tool's labelled line enters the prompt's tool block
exactly when its result text is non-empty and does not begin with
`Error` — so an empty result, or any result starting with `Error`
(a templated tool failure, but equally a genuinely successful result
that merely begins with that word), is silently dropped, and the block
can hold strictly fewer lines than the number of invoked tools. -/
theorem C10_error_prefixed_results_omitted (P : Providers) (message tool r : String)
    (h : dispatch P message tool = some r) :
    ((r == "" || strStartsWith r "Error") = true →
        (process_tools P message [tool]).1 = []
        ∧ (process_tools P message [tool]).2 = [tool])
    ∧ ((r == "" || strStartsWith r "Error") = false →
        (process_tools P message [tool]).1 = [pyCapitalize tool ++ ": " ++ r]
        ∧ (process_tools P message [tool]).2 = [tool])
    ∧ (∀ tools : List String,
        ((process_tools P message tools).1).length
          ≤ ((process_tools P message tools).2).length) := by
  refine ⟨?_, ?_, process_tools_length_le P message⟩
  · intro hc
    have hcond : (!(r == "") && !(strStartsWith r "Error")) = false := by
      cases h1 : (r == "") <;> cases h2 : strStartsWith r "Error" <;> simp_all
    simp [process_tools, h, hcond]
  · intro hc
    have hcond : (!(r == "") && !(strStartsWith r "Error")) = true := by
      cases h1 : (r == "") <;> cases h2 : strStartsWith r "Error" <;> simp_all
    simp [process_tools, h, hcond]

theorem C10_error_prefixed_results_omitted_witness :
    (process_tools PerrBody "query" ["duckduckgo"]).1 = []
    ∧ (process_tools PerrBody "query" ["duckduckgo"]).2 = ["duckduckgo"] :=
  (C10_error_prefixed_results_omitted PerrBody "query" "duckduckgo"
    "Error codes explained" (by decide)).1 (by decide)

/-- C1 as stated is false: with the persona's two declared tools
`wikipedia` and `duckduckgo` both attempted, a wikipedia failure string
(which begins with `Error`) is filtered out of the block, leaving one
line instead of one line per attempted tool; the composed prompt of
`process_message` carries that single-line block. -/
theorem C1_counterexample :
    (process_tools P0 "Tell me about Paris" ["wikipedia", "duckduckgo"]).2
      = ["wikipedia", "duckduckgo"]
    ∧ (process_tools P0 "Tell me about Paris" ["wikipedia", "duckduckgo"]).1
      = ["Duckduckgo: Paris travel guide."]
    ∧ ((process_tools P0 "Tell me about Paris" ["wikipedia", "duckduckgo"]).1).length ≠ 2
    ∧ (process_message P0 reg1 "1" "Tell me about Paris").completionCall
      = some (system_message_of agent1,
          user_message_of "Tell me about Paris" ["Duckduckgo: Paris travel guide."]) := by
  refine ⟨rfl, rfl, by decide, rfl⟩

/-- C1 amended: for every declared tool list and every message, the
tools invoked are exactly the declared tools passing the eligibility
gate, in declared order, and the prompt's tool block is exactly one
labelled line per invoked tool whose result text is non-empty and does
not begin with `Error`, in that same order; in particular, when both
the encyclopedia and the web-search results pass that filter, a persona
declaring those two tools gets exactly two lines, one per tool, in
declared order; and the block never holds more lines than tools
invoked. -/
theorem C1_tool_block_lines (P : Providers) (message : String) :
    (∀ tools : List String,
        (process_tools P message tools).2
          = tools.filter (fun t => (dispatch P message t).isSome)
        ∧ (process_tools P message tools).1
          = (((process_tools P message tools).2).filter
                (fun t => result_included ((dispatch P message t).getD ""))).map
              (tool_line P message))
    ∧ (∀ tools : List String,
        ((process_tools P message tools).1).length
          ≤ ((process_tools P message tools).2).length)
    ∧ ((wikipedia_search P.wiki message == ""
          || strStartsWith (wikipedia_search P.wiki message) "Error") = false →
        (duckduckgo_search P.ddg message == ""
          || strStartsWith (duckduckgo_search P.ddg message) "Error") = false →
        (process_tools P message ["wikipedia", "duckduckgo"]).1
          = ["Wikipedia: " ++ wikipedia_search P.wiki message,
             "Duckduckgo: " ++ duckduckgo_search P.ddg message]
        ∧ (process_tools P message ["wikipedia", "duckduckgo"]).2
          = ["wikipedia", "duckduckgo"]) := by
  have hinv : ∀ tools : List String,
      (process_tools P message tools).2
        = tools.filter (fun t => (dispatch P message t).isSome) := by
    intro tools
    induction tools with
    | nil => rfl
    | cons t rest ih =>
      simp only [process_tools, List.filter_cons]
      cases hd : dispatch P message t with
      | none => simpa using ih
      | some r => simpa using ih
  have hblock : ∀ tools : List String,
      (process_tools P message tools).1
        = ((tools.filter (fun t => (dispatch P message t).isSome)).filter
              (fun t => result_included ((dispatch P message t).getD ""))).map
            (tool_line P message) := by
    intro tools
    induction tools with
    | nil => rfl
    | cons t rest ih =>
      simp only [process_tools, List.filter_cons]
      cases hd : dispatch P message t with
      | none => simpa [hd] using ih
      | some r =>
        cases hc : (!(r == "") && !(strStartsWith r "Error")) with
        | false =>
          simp [hd, hc, List.filter_cons, result_included, ih]
        | true =>
          simp [hd, hc, List.filter_cons, result_included, ih, tool_line]
  refine ⟨fun tools => ⟨hinv tools, ?_⟩, process_tools_length_le P message, ?_⟩
  · rw [hblock tools, hinv tools]
  · intro hw hd
    have e1 : pyCapitalize "wikipedia" ++ ": " = "Wikipedia: " := by decide
    have e2 : pyCapitalize "duckduckgo" ++ ": " = "Duckduckgo: " := by decide
    have hw2 : (!(wikipedia_search P.wiki message == "")
        && !(strStartsWith (wikipedia_search P.wiki message) "Error")) = true := by
      cases h1 : (wikipedia_search P.wiki message == "") <;>
        cases h2 : strStartsWith (wikipedia_search P.wiki message) "Error" <;> simp_all
    have hd2 : (!(duckduckgo_search P.ddg message == "")
        && !(strStartsWith (duckduckgo_search P.ddg message) "Error")) = true := by
      cases h1 : (duckduckgo_search P.ddg message == "") <;>
        cases h2 : strStartsWith (duckduckgo_search P.ddg message) "Error" <;> simp_all
    constructor
    · simp [process_tools, dispatch, hw2, hd2, ← e1, ← e2, String.append_assoc]
    · simp [process_tools, dispatch]

theorem C1_tool_block_lines_witness :
    (process_tools Pgood "Tell me about Paris" ["wikipedia", "duckduckgo"]).1
      = ["Wikipedia: Paris is the capital of France.",
         "Duckduckgo: Paris travel guide."]
    ∧ (process_tools Pgood "Tell me about Paris" ["wikipedia", "duckduckgo"]).2
      = ["wikipedia", "duckduckgo"] :=
  (C1_tool_block_lines Pgood "Tell me about Paris").2.2 (by decide) (by decide)

/-! ### Claims on creation validation -/

/-- C2 as stated is false: a payload whose `task` dict lacks only
`description` is rejected with the fixed `Invalid task data format`
error, whose message does not name the missing field. -/
theorem C2_counterexample :
    create_agent [] dNoDescription = Except.error CreateError.invalidTaskFormat
    ∧ strContains (renderCreateError CreateError.invalidTaskFormat) "task.description"
        = false
    ∧ strContains (renderCreateError CreateError.invalidTaskFormat) "description"
        = false := by
  refine ⟨by decide, by decide, by decide⟩

/-- C2 amended: `create_agent` checks the six top-level required fields
(name, role, goal, backstory, tools, task); if any are absent it fails
with a ValidationError listing exactly the missing top-level fields
(every missing one listed, no present one listed); when all six are
present but the task payload is not a dict holding both `description`
and `expected_output`, it fails with the fixed `Invalid task data
format` error, which names no individual task sub-field. -/
theorem C2_required_field_validation (m : Registry) (d : AgentData) :
    (∀ f, f ∈ missing_fields_of d ↔ f ∈ required_fields ∧ has_field d f = false)
    ∧ (missing_fields_of d ≠ [] →
        create_agent m d = Except.error (CreateError.missingFields (missing_fields_of d)))
    ∧ (missing_fields_of d = [] → ∀ td, d.task = some td → task_format_ok td = false →
        create_agent m d = Except.error CreateError.invalidTaskFormat) := by
  refine ⟨?_, ?_, ?_⟩
  · intro f
    simp [missing_fields_of, List.mem_filter]
  · intro hne
    have hie : (missing_fields_of d).isEmpty = false := by
      cases hm : missing_fields_of d with
      | nil => exact absurd hm hne
      | cons x xs => rfl
    simp [create_agent, hie]
  · intro he td htd hbad
    cases td with
    | notDict => simp [create_agent, he, htd]
    | dict a b =>
      cases a with
      | none => simp [create_agent, he, htd]
      | some x =>
        cases b with
        | none => simp [create_agent, he, htd]
        | some y => simp [task_format_ok] at hbad

theorem C2_required_field_validation_witness :
    create_agent [] dMiss = Except.error (CreateError.missingFields ["role", "tools"]) := by
  have h := (C2_required_field_validation [] dMiss).2.1 (by decide)
  rw [show missing_fields_of dMiss = ["role", "tools"] from by decide] at h
  exact h

end Datalyze
